import Mathlib

/-!
Shallow embedding of `scripts/whisper_transcribe.py` (Pensieve's Whisper
transcription adapter).

Modelling choices:

* Python floats that the script merely passes through (segment times,
  temperature, thresholds) are represented by their decimal rendering as a
  `String` (`PyFloat`); the script performs no arithmetic on them and
  `json.dumps` prints exactly that rendering, so composition is faithful.
* The external collaborator (`whisper.load_model` + `Model.transcribe`) is an
  oracle inside `World`: a function from the model name, resolved device,
  options record and audio path to either a result or a raised exception
  (`Except String TranscribeResult`).  `torch.cuda.is_available()` and the GPU
  name are further `World` fields, as is the filesystem's `exists` check.
* `pathlib.Path(s)` is modelled as the string `s` itself (the script only
  builds a `Path` to test existence and to print/pass it back as a string;
  platform-specific normalisation is not modelled).
* stdout is a `String`, stderr a list of lines, `sys.exit(1)` an exit code.
  The traceback that `traceback.print_exc` adds on stderr after the error
  line is additional free-form diagnostic text and is not modelled.
* The Python dict `transcribe_params` is the structure `TranscribeParams`;
  keys that the script adds only conditionally (`task`, `initial_prompt`)
  are `Option` fields where `none` means "key absent".
-/

namespace WhisperTranscribe

/-- Decimal rendering of a Python float that the script passes through
unchanged (no arithmetic is performed on these values). -/
abbrev PyFloat := String

/-- A segment of the collaborator's result: `{start, end, text}`. -/
structure Segment where
  start : PyFloat
  «end» : PyFloat
  text : String
deriving DecidableEq

/-- The collaborator's transcription result: `{text, language, segments}`. -/
structure TranscribeResult where
  text : String
  language : String
  segments : List Segment
deriving DecidableEq

/-- The `transcribe_params` dict built in `transcribe_audio` (lines 83-99).
`task` and `initial_prompt` are only inserted conditionally; `none` models an
absent key. -/
structure TranscribeParams where
  language : Option String
  fp16 : Bool
  verbose : Bool
  temperature : PyFloat
  compression_ratio_threshold : PyFloat
  logprob_threshold : PyFloat
  no_speech_threshold : PyFloat
  condition_on_previous_text : Bool
  word_timestamps : Bool
  task : Option String
  initial_prompt : Option String
deriving DecidableEq

/-- The single collaborator invocation performed by `transcribe_audio`:
`whisper.load_model(model_name, device=device)` followed by
`model.transcribe(str(audio_path), **transcribe_params)`. -/
structure CollabCall where
  modelName : String
  device : String
  params : TranscribeParams
  audioPath : String
deriving DecidableEq

/-- The ambient world of one process invocation: filesystem existence,
CUDA availability, GPU name, and the opaque collaborator.  The collaborator
returns `Except.error e` when `load_model` or `transcribe` raises. -/
structure World where
  fileExists : String → Bool
  cudaAvailable : Bool
  gpuName : String
  collab : String → String → TranscribeParams → String → Except String TranscribeResult

/-- Python truthiness of an optional string: `None` and `""` are falsy. -/
def pyTruthy : Option String → Bool
  | none => false
  | some s => s != ""

/-- Characters removed by Python's `str.strip()`: exactly those for which
`str.isspace()` is true — the ASCII whitespace U+0009-U+000D and U+0020,
the control characters U+001C-U+001F, U+0085, and the Unicode spaces
U+00A0, U+1680, U+2000-U+200A, U+2028, U+2029, U+202F, U+205F, U+3000. -/
def pyIsSpace (c : Char) : Bool :=
  c = ' ' || c = '\t' || c = '\n' || c = '\x0b' || c = '\x0c' || c = '\x0d' ||
  c = '\x1c' || c = '\x1d' || c = '\x1e' || c = '\x1f' ||
  c = '\u0085' || c = '\u00A0' || c = '\u1680' ||
  (0x2000 ≤ c.toNat && c.toNat ≤ 0x200A) ||
  c = '\u2028' || c = '\u2029' || c = '\u202F' || c = '\u205F' || c = '\u3000'

/-- Python `str.strip()`: drop leading and trailing whitespace. -/
def pyStrip (s : String) : String :=
  String.mk (((s.data.dropWhile pyIsSpace).reverse.dropWhile pyIsSpace).reverse)

/-- JSON value, as serialised by `json.dumps` with default separators. -/
inductive Json where
  | str (s : String)
  | num (n : PyFloat)
  | arr (xs : List Json)
  | obj (kvs : List (String × Json))

/-- Hexadecimal digit for `\u00XX` escapes. -/
def hexDigit (n : Nat) : Char :=
  if n < 10 then Char.ofNat (48 + n) else Char.ofNat (87 + n)

/-- How `json.dumps(..., ensure_ascii=False)` serialises one character of a
string: `"`/`\` and control characters are escaped, everything else —
including all non-ASCII characters — is emitted literally. -/
def jsonEscapeChar (c : Char) : String :=
  if c = '"' then "\\\""
  else if c = '\\' then "\\\\"
  else if c = '\n' then "\\n"
  else if c = '\x0d' then "\\r"
  else if c = '\t' then "\\t"
  else if c = '\x08' then "\\b"
  else if c = '\x0c' then "\\f"
  else if c.toNat < 0x20 then
    String.mk ['\\', 'u', '0', '0', hexDigit (c.toNat / 16), hexDigit (c.toNat % 16)]
  else String.singleton c

/-- Escape every character of a string for inclusion in a JSON string
literal (character list form). -/
def escChars : List Char → List Char
  | [] => []
  | c :: cs => (jsonEscapeChar c).data ++ escChars cs

/-- Escape a string for inclusion in a JSON string literal. -/
def jsonEscape (s : String) : String := String.mk (escChars s.data)

mutual

/-- `json.dumps` with default separators and `ensure_ascii=False`. -/
def Json.render : Json → String
  | .str s => "\"" ++ jsonEscape s ++ "\""
  | .num n => n
  | .arr xs => "[" ++ Json.renderArr xs ++ "]"
  | .obj kvs => "\x7b" ++ Json.renderObj kvs ++ "\x7d"

/-- Comma-separated rendering of array elements. -/
def Json.renderArr : List Json → String
  | [] => ""
  | [x] => Json.render x
  | x :: y :: rest => Json.render x ++ ", " ++ Json.renderArr (y :: rest)

/-- Comma-separated rendering of object members (`"key": value`). -/
def Json.renderObj : List (String × Json) → String
  | [] => ""
  | [kv] => "\"" ++ jsonEscape kv.1 ++ "\": " ++ Json.render kv.2
  | kv :: kv2 :: rest =>
      "\"" ++ jsonEscape kv.1 ++ "\": " ++ Json.render kv.2 ++ ", " ++
        Json.renderObj (kv2 :: rest)

end

/-- The `output` dict built in `main` (lines 163-174): trimmed full text,
language unchanged, segments in order with raw times and trimmed text. -/
def outputJson (result : TranscribeResult) : Json :=
  Json.obj [
    ("text", Json.str (pyStrip result.text)),
    ("language", Json.str result.language),
    ("segments", Json.arr (result.segments.map fun seg =>
      Json.obj [
        ("start", Json.num seg.start),
        ("end", Json.num seg.«end»),
        ("text", Json.str (pyStrip seg.text))]))]

/-- What `transcribe_audio` produces: its stderr lines, the collaborator
call it made, and the collaborator's outcome. -/
structure TAOut where
  logs : List String
  call : CollabCall
  res : Except String TranscribeResult

/-- `transcribe_audio` (lines 35-105).  The `device == "auto"` resolution,
the stderr progress lines, the construction of `transcribe_params`, and the
collaborator invocation.  A raising collaborator is the `Except.error`
branch; `"Progress: 100%"` is only logged when it returns normally.  (An
exception from `load_model` alone would suppress the two lines printed
between the two calls; the oracle conflates the two calls, which no claim
distinguishes.) -/
def transcribe_audio (w : World) (audio_path : String) (model_name : String)
    (language : Option String) (device : String) (temperature : PyFloat)
    (compression_ratio_threshold : PyFloat) (logprob_threshold : PyFloat)
    (no_speech_threshold : PyFloat) (fp16 : Bool) (translate : Bool)
    (condition_on_previous_text : Bool) (initial_prompt : Option String)
    (word_timestamps : Bool) : TAOut :=
  let device := if device = "auto" then (if w.cudaAvailable then "cuda" else "cpu") else device
  let logs1 := ["Using device: " ++ device]
  let logs2 := if device = "cuda" && w.cudaAvailable then logs1 ++ ["GPU: " ++ w.gpuName] else logs1
  let logs3 := logs2 ++
    ["Loading Whisper " ++ model_name ++ " model...",
     "Transcribing: " ++ audio_path,
     "Progress: 0%"]
  let params : TranscribeParams :=
    { language := if pyTruthy language then language else none
      fp16 := fp16 && device == "cuda"
      verbose := false
      temperature := temperature
      compression_ratio_threshold := compression_ratio_threshold
      logprob_threshold := logprob_threshold
      no_speech_threshold := no_speech_threshold
      condition_on_previous_text := condition_on_previous_text
      word_timestamps := word_timestamps
      task := if translate then some "translate" else none
      initial_prompt := if pyTruthy initial_prompt then initial_prompt else none }
  let call : CollabCall :=
    { modelName := model_name, device := device, params := params, audioPath := audio_path }
  let res := w.collab model_name device params audio_path
  { logs := logs3 ++ (match res with | .ok _ => ["Progress: 100%"] | .error _ => []),
    call := call, res := res }

/-- The observable outcome of one process run: stdout contents, stderr
lines, exit status, and the collaborator call made (if any). -/
structure Outcome where
  stdout : String
  stderr : List String
  exitCode : Nat
  call : Option CollabCall

/-- Parsed command-line arguments, with argparse's defaults
(lines 110-137). -/
structure Args where
  audio_file : String
  model : String := "base"
  language : String := ""
  device : String := "auto"
  temperature : PyFloat := "0.0"
  compression_ratio_threshold : PyFloat := "2.4"
  logprob_threshold : PyFloat := "-1.0"
  no_speech_threshold : PyFloat := "0.6"
  no_fp16 : Bool := false
  translate : Bool := false
  no_condition_on_previous_text : Bool := false
  initial_prompt : String := ""
  word_timestamps : Bool := false

/-- `main` (lines 107-182), after argument parsing: the existence check on
the audio path, the call to `transcribe_audio` with every marshalled flag,
the JSON emission on success (with `print`'s trailing newline), and the
exception-to-exit-1 mapping.  The try/except of lines 145-182 is presented
field-wise (one match per `Outcome` field); the two presentations build the
same outcome in both branches. -/
def main (w : World) (args : Args) : Outcome :=
  let audio_path := args.audio_file
  if w.fileExists audio_path = false then
    { stdout := "", stderr := ["Error: Audio file not found: " ++ audio_path],
      exitCode := 1, call := none }
  else
    let t := transcribe_audio w audio_path args.model
      (if args.language != "" then some args.language else none)
      args.device args.temperature args.compression_ratio_threshold
      args.logprob_threshold args.no_speech_threshold (!args.no_fp16)
      args.translate (!args.no_condition_on_previous_text)
      (if args.initial_prompt != "" then some args.initial_prompt else none)
      args.word_timestamps
    { stdout :=
        match t.res with
        | .ok result => Json.render (outputJson result) ++ "\n"
        | .error _ => "",
      stderr :=
        match t.res with
        | .ok _ => t.logs
        | .error e => t.logs ++ ["Error during transcription: " ++ e],
      exitCode := match t.res with | .ok _ => 0 | .error _ => 1,
      call := some t.call }

/-! ### Module-level initialisation (lines 20-33): PATH mutation -/

/-- The environment-variable table (`os.environ`), as an association list. -/
abbrev Environ := List (String × String)

/-- `os.environ.get(k, d)`. -/
def envGet (env : Environ) (k d : String) : String :=
  ((env.find? (fun kv => kv.1 == k)).map Prod.snd).getD d

/-- `os.environ[k] = v`: bind `k` to `v`, leaving every other key's binding
unchanged. -/
def envSet (env : Environ) (k v : String) : Environ :=
  (k, v) :: env.filter (fun kv => kv.1 != k)

/-- Inputs of the module-level initialisation: the script's own directory
(`Path(__file__).parent`), that directory's parent, `os.pathsep`, and the
filesystem existence check used by `Path.exists`. -/
structure InitEnv where
  scriptDir : String
  scriptParent : String
  pathSep : String
  pathExists : String → Bool

/-- `p / q` on paths (`Path.__truediv__`), with a fixed separator. -/
def joinPath (d f : String) : String := d ++ "/" ++ f

/-- Lines 26-30: the helper directory is the script's own directory when
`ffmpeg.exe` is co-located with it, else the sibling `extra` directory one
level up. -/
def extra_dir (e : InitEnv) : String :=
  if e.pathExists (joinPath e.scriptDir "ffmpeg.exe") then e.scriptDir
  else joinPath e.scriptParent "extra"

/-- Lines 32-33: if the helper directory exists, prepend it (with the
separator) to `PATH`, the previous value (default `""`) kept as suffix. -/
def moduleInit (e : InitEnv) (environ : Environ) : Environ :=
  if e.pathExists (extra_dir e) then
    envSet environ "PATH" (extra_dir e ++ e.pathSep ++ envGet environ "PATH" "")
  else environ

/-- One whole process run: the module-level initialisation mutates the
environment once at startup; nothing later in the script writes to the
environment, so the final environment is `moduleInit`'s output, paired with
`main`'s observable outcome. -/
def runProcess (e : InitEnv) (environ : Environ) (w : World) (args : Args) :
    Environ × Outcome :=
  (moduleInit e environ, main w args)

/-! ### Concrete stub worlds used by the witnesses -/

/-- The stubbed collaborator result of spec §8 property 2. -/
def stubResult : TranscribeResult :=
  { text := " Hello world ", language := "en",
    segments := [ { start := "0.0", «end» := "1.2", text := " Hello " },
                  { start := "1.2", «end» := "2.0", text := " world " } ] }

/-- A world where every file exists, no CUDA, and the collaborator always
returns `r`. -/
def okWorld (r : TranscribeResult) : World :=
  { fileExists := fun _ => true, cudaAvailable := false, gpuName := "",
    collab := fun _ _ _ _ => Except.ok r }

/-- A world where every file exists and the collaborator always raises
exception `e`. -/
def raiseWorld (e : String) : World :=
  { fileExists := fun _ => true, cudaAvailable := false, gpuName := "",
    collab := fun _ _ _ _ => Except.error e }

/-- A world where no file exists. -/
def noFileWorld : World :=
  { fileExists := fun _ => false, cudaAvailable := false, gpuName := "",
    collab := fun _ _ _ _ => Except.error "never called" }

/-- The collaborator call `main` performs once the audio file exists:
`transcribe_audio` applied to exactly the marshalled arguments of
lines 146-160. -/
def mainCall (w : World) (args : Args) : CollabCall :=
  (transcribe_audio w args.audio_file args.model
    (if args.language != "" then some args.language else none)
    args.device args.temperature args.compression_ratio_threshold
    args.logprob_threshold args.no_speech_threshold (!args.no_fp16)
    args.translate (!args.no_condition_on_previous_text)
    (if args.initial_prompt != "" then some args.initial_prompt else none)
    args.word_timestamps).call

lemma call_eq_mainCall (w : World) (args : Args)
    (h : w.fileExists args.audio_file = true) :
    (main w args).call = some (mainCall w args) := by
  simp [main, mainCall, h]

lemma mainCall_model (w : World) (args : Args) :
    (mainCall w args).modelName = args.model := by
  simp [mainCall, transcribe_audio]

lemma mainCall_audioPath (w : World) (args : Args) :
    (mainCall w args).audioPath = args.audio_file := by
  simp [mainCall, transcribe_audio]

lemma mainCall_device (w : World) (args : Args) :
    (mainCall w args).device =
      (if args.device = "auto" then (if w.cudaAvailable then "cuda" else "cpu")
       else args.device) := by
  simp [mainCall, transcribe_audio]

lemma mainCall_language (w : World) (args : Args) :
    (mainCall w args).params.language =
      (if args.language = "" then none else some args.language) := by
  by_cases h : args.language = "" <;>
    simp [mainCall, transcribe_audio, pyTruthy, h]

lemma mainCall_task (w : World) (args : Args) :
    (mainCall w args).params.task =
      (if args.translate then some "translate" else none) := by
  simp [mainCall, transcribe_audio]

lemma mainCall_fp16 (w : World) (args : Args) :
    (mainCall w args).params.fp16 =
      ((!args.no_fp16) &&
        ((if args.device = "auto" then (if w.cudaAvailable then "cuda" else "cpu")
          else args.device) == "cuda")) := by
  simp [mainCall, transcribe_audio]

lemma mainCall_initial_prompt (w : World) (args : Args) :
    (mainCall w args).params.initial_prompt =
      (if args.initial_prompt = "" then none else some args.initial_prompt) := by
  by_cases h : args.initial_prompt = "" <;>
    simp [mainCall, transcribe_audio, pyTruthy, h]

lemma main_exit_ok (w : World) (args : Args) (r : TranscribeResult)
    (h1 : w.fileExists args.audio_file = true)
    (h2 : ∀ m d p a, w.collab m d p a = Except.ok r) :
    (main w args).exitCode = 0 := by
  simp [main, transcribe_audio, h1, h2]

lemma main_stdout_ok (w : World) (args : Args) (r : TranscribeResult)
    (h1 : w.fileExists args.audio_file = true)
    (h2 : ∀ m d p a, w.collab m d p a = Except.ok r) :
    (main w args).stdout = Json.render (outputJson r) ++ "\n" := by
  simp [main, transcribe_audio, h1, h2]

lemma main_exit_raise (w : World) (args : Args) (e : String)
    (h1 : w.fileExists args.audio_file = true)
    (h2 : ∀ m d p a, w.collab m d p a = Except.error e) :
    (main w args).exitCode = 1 := by
  simp [main, transcribe_audio, h1, h2]

lemma main_stdout_raise (w : World) (args : Args) (e : String)
    (h1 : w.fileExists args.audio_file = true)
    (h2 : ∀ m d p a, w.collab m d p a = Except.error e) :
    (main w args).stdout = "" := by
  simp [main, transcribe_audio, h1, h2]

lemma main_stderr_raise (w : World) (args : Args) (e : String)
    (h1 : w.fileExists args.audio_file = true)
    (h2 : ∀ m d p a, w.collab m d p a = Except.error e) :
    ("Error during transcription: " ++ e) ∈ (main w args).stderr := by
  simp [main, transcribe_audio, h1, h2]

/-! ### Character-level lemmas for the UTF-8 claim -/

lemma jsonEscapeChar_of_plain (c : Char) (h32 : 0x20 ≤ c.toNat)
    (hq : c ≠ '"') (hbs : c ≠ '\\') : jsonEscapeChar c = String.singleton c := by
  have hn : c ≠ '\n' := by rintro rfl; exact absurd h32 (by decide)
  have hr : c ≠ '\x0d' := by rintro rfl; exact absurd h32 (by decide)
  have ht : c ≠ '\t' := by rintro rfl; exact absurd h32 (by decide)
  have hb8 : c ≠ '\x08' := by rintro rfl; exact absurd h32 (by decide)
  have hf : c ≠ '\x0c' := by rintro rfl; exact absurd h32 (by decide)
  unfold jsonEscapeChar
  rw [if_neg hq, if_neg hbs, if_neg hn, if_neg hr, if_neg ht, if_neg hb8,
      if_neg hf, if_neg (by omega)]

lemma mem_escChars (l : List Char) (c : Char) (hc : c ∈ l)
    (h32 : 0x20 ≤ c.toNat) (hq : c ≠ '"') (hbs : c ≠ '\\') :
    c ∈ escChars l := by
  induction l with
  | nil => cases hc
  | cons a as ih =>
      rw [escChars]
      rcases List.mem_cons.mp hc with rfl | hmem
      · rw [jsonEscapeChar_of_plain c h32 hq hbs]
        exact List.mem_append.mpr (Or.inl (by simp [String.singleton]))
      · exact List.mem_append.mpr (Or.inr (ih hmem))

lemma mem_render_str (s : String) (c : Char) (hc : c ∈ escChars s.data) :
    c ∈ (Json.render (Json.str s)).data := by
  simp only [Json.render, jsonEscape, String.data_append, List.mem_append]
  exact Or.inl (Or.inr hc)

lemma mem_renderArr (xs : List Json) (x : Json) (hx : x ∈ xs) (c : Char)
    (hc : c ∈ (Json.render x).data) : c ∈ (Json.renderArr xs).data := by
  induction xs with
  | nil => cases hx
  | cons a as ih =>
      rcases List.mem_cons.mp hx with rfl | hmem
      · cases as with
        | nil => simpa [Json.renderArr] using hc
        | cons b bs =>
            simp only [Json.renderArr, String.data_append, List.mem_append]
            exact Or.inl (Or.inl hc)
      · cases as with
        | nil => cases hmem
        | cons b bs =>
            simp only [Json.renderArr, String.data_append, List.mem_append]
            exact Or.inr (ih hmem)

lemma mem_render_arr (xs : List Json) (x : Json) (hx : x ∈ xs) (c : Char)
    (hc : c ∈ (Json.render x).data) : c ∈ (Json.render (Json.arr xs)).data := by
  simp only [Json.render, String.data_append, List.mem_append]
  exact Or.inl (Or.inr (mem_renderArr xs x hx c hc))

lemma mem_renderObj (kvs : List (String × Json)) (kv : String × Json)
    (hkv : kv ∈ kvs) (c : Char) (hc : c ∈ (Json.render kv.2).data) :
    c ∈ (Json.renderObj kvs).data := by
  induction kvs with
  | nil => cases hkv
  | cons a as ih =>
      rcases List.mem_cons.mp hkv with rfl | hmem
      · cases as with
        | nil =>
            simp only [Json.renderObj, String.data_append, List.mem_append]
            exact Or.inr hc
        | cons b bs =>
            simp only [Json.renderObj, String.data_append, List.mem_append]
            exact Or.inl (Or.inl (Or.inr hc))
      · cases as with
        | nil => cases hmem
        | cons b bs =>
            simp only [Json.renderObj, String.data_append, List.mem_append]
            exact Or.inr (ih hmem)

lemma mem_render_obj (kvs : List (String × Json)) (kv : String × Json)
    (hkv : kv ∈ kvs) (c : Char) (hc : c ∈ (Json.render kv.2).data) :
    c ∈ (Json.render (Json.obj kvs)).data := by
  simp only [Json.render, String.data_append, List.mem_append]
  exact Or.inl (Or.inr (mem_renderObj kvs kv hkv c hc))

/-! ### Claims -/

/-- C1: with the audio file present and a stubbed collaborator returning
`r`, the adapter exits 0 and its stdout is exactly one JSON object whose
text is the trimmed full text, whose language is unchanged, and whose
segments keep length and order with raw start/end and trimmed text; in
particular the spec's stub yields exactly the expected JSON line. -/
theorem C1_output_shaping :
    (∀ (w : World) (args : Args) (r : TranscribeResult),
        w.fileExists args.audio_file = true →
        (∀ m d p a, w.collab m d p a = Except.ok r) →
        (main w args).exitCode = 0 ∧
        (main w args).stdout =
          Json.render (Json.obj
            [("text", Json.str (pyStrip r.text)),
             ("language", Json.str r.language),
             ("segments", Json.arr (r.segments.map fun seg =>
               Json.obj [("start", Json.num seg.start),
                         ("end", Json.num seg.«end»),
                         ("text", Json.str (pyStrip seg.text))]))]) ++ "\n") ∧
    (main (okWorld stubResult) { audio_file := "a.wav" }).stdout =
      "\x7b\"text\": \"Hello world\", \"language\": \"en\", \"segments\": [\x7b\"start\": 0.0, \"end\": 1.2, \"text\": \"Hello\"\x7d, \x7b\"start\": 1.2, \"end\": 2.0, \"text\": \"world\"\x7d]\x7d\n" ∧
    (main (okWorld stubResult) { audio_file := "a.wav" }).exitCode = 0 := by
  refine ⟨fun w args r h1 h2 => ⟨main_exit_ok w args r h1 h2, ?_⟩, rfl, rfl⟩
  rw [main_stdout_ok w args r h1 h2]
  simp [outputJson]

/-- C1 witness: the general part applied to the stub world and the spec's
stubbed result. -/
theorem C1_output_shaping_witness :
    (okWorld stubResult).fileExists "a.wav" = true ∧
    (main (okWorld stubResult) { audio_file := "a.wav" }).exitCode = 0 :=
  ⟨rfl, (C1_output_shaping.1 (okWorld stubResult) { audio_file := "a.wav" } stubResult rfl
      (fun _ _ _ _ => rfl)).1⟩

/-- C2: a nonexistent audio path yields exit status 1, empty stdout, no
collaborator invocation (the check precedes any model work), and a
diagnostic line that mentions the given path. -/
theorem C2_missing_file :
    ∀ (w : World) (args : Args),
      w.fileExists args.audio_file = false →
      (main w args).exitCode = 1 ∧ (main w args).stdout = "" ∧
      (main w args).call = none ∧
      (main w args).stderr = ["Error: Audio file not found: " ++ args.audio_file] ∧
      ∃ line ∈ (main w args).stderr, args.audio_file.data <:+: line.data := by
  intro w args h
  have hm : main w args =
      { stdout := "", stderr := ["Error: Audio file not found: " ++ args.audio_file],
        exitCode := 1, call := none } := by
    simp [main, h]
  rw [hm]
  refine ⟨rfl, rfl, rfl, rfl, "Error: Audio file not found: " ++ args.audio_file, by simp, ?_⟩
  rw [String.data_append]
  exact (List.suffix_append _ _).isInfix

/-- C2 witness: the theorem applied to the no-file world. -/
theorem C2_missing_file_witness :
    noFileWorld.fileExists "missing.wav" = false ∧
    (main noFileWorld { audio_file := "missing.wav" }).exitCode = 1 :=
  ⟨rfl, (C2_missing_file noFileWorld { audio_file := "missing.wav" } rfl).1⟩

/-- C3: a raising collaborator leaves stdout empty, exits 1 and reports on
stderr; a returning collaborator yields exit 0 with stdout being exactly
one rendered JSON document (plus `print`'s newline) — never partial
output. -/
theorem C3_failure_atomicity :
    (∀ (w : World) (args : Args) (e : String),
        w.fileExists args.audio_file = true →
        (∀ m d p a, w.collab m d p a = Except.error e) →
        (main w args).stdout = "" ∧ (main w args).exitCode = 1 ∧
        ("Error during transcription: " ++ e) ∈ (main w args).stderr) ∧
    (∀ (w : World) (args : Args) (r : TranscribeResult),
        w.fileExists args.audio_file = true →
        (∀ m d p a, w.collab m d p a = Except.ok r) →
        (main w args).exitCode = 0 ∧
        (main w args).stdout = Json.render (outputJson r) ++ "\n") :=
  ⟨fun w args e h1 h2 =>
    ⟨main_stdout_raise w args e h1 h2, main_exit_raise w args e h1 h2,
     main_stderr_raise w args e h1 h2⟩,
   fun w args r h1 h2 =>
    ⟨main_exit_ok w args r h1 h2, main_stdout_ok w args r h1 h2⟩⟩

/-- C3 witness: both parts applied to concrete stub worlds. -/
theorem C3_failure_atomicity_witness :
    ((raiseWorld "boom").fileExists "a.wav" = true ∧
      (main (raiseWorld "boom") { audio_file := "a.wav" }).stdout = "" ∧
      (main (raiseWorld "boom") { audio_file := "a.wav" }).exitCode = 1) ∧
    ((okWorld stubResult).fileExists "b.wav" = true ∧
      (main (okWorld stubResult) { audio_file := "b.wav" }).exitCode = 0) :=
  ⟨⟨rfl,
    (C3_failure_atomicity.1 (raiseWorld "boom") { audio_file := "a.wav" } "boom" rfl
      (fun _ _ _ _ => rfl)).1,
    (C3_failure_atomicity.1 (raiseWorld "boom") { audio_file := "a.wav" } "boom" rfl
      (fun _ _ _ _ => rfl)).2.1⟩,
   ⟨rfl,
    (C3_failure_atomicity.2 (okWorld stubResult) { audio_file := "b.wav" } stubResult rfl
      (fun _ _ _ _ => rfl)).1⟩⟩

/-- C4: when the language argument is omitted (argparse default `""`) or
passed empty, the options record handed to the collaborator carries
`language = none` (auto-detect), not a placeholder string. -/
theorem C4_language_auto_detect :
    ∀ (w : World) (args : Args),
      w.fileExists args.audio_file = true → args.language = "" →
      ∃ c, (main w args).call = some c ∧ c.params.language = none := by
  intro w args h hl
  exact ⟨mainCall w args, call_eq_mainCall w args h, by rw [mainCall_language]; simp [hl]⟩

/-- C4 witness: the theorem applied with the default (empty) language. -/
theorem C4_language_auto_detect_witness :
    (okWorld stubResult).fileExists "a.wav" = true ∧
    ({ audio_file := "a.wav" } : Args).language = "" ∧
    ∃ c, (main (okWorld stubResult) { audio_file := "a.wav" }).call = some c ∧
      c.params.language = none :=
  ⟨rfl, rfl, C4_language_auto_detect (okWorld stubResult) { audio_file := "a.wav" } rfl rfl⟩

/-- C5: the options record requests the translate task exactly when
`--translate` is given; otherwise no task override is passed. -/
theorem C5_translate_task :
    ∀ (w : World) (args : Args),
      w.fileExists args.audio_file = true →
      ∃ c, (main w args).call = some c ∧
        c.params.task = (if args.translate then some "translate" else none) := by
  intro w args h
  exact ⟨mainCall w args, call_eq_mainCall w args h, mainCall_task w args⟩

/-- C5 witness: the theorem applied with `--translate` set. -/
theorem C5_translate_task_witness :
    (okWorld stubResult).fileExists "a.wav" = true ∧
    ∃ c, (main (okWorld stubResult) { audio_file := "a.wav", translate := true }).call = some c ∧
      c.params.task =
        (if ({ audio_file := "a.wav", translate := true } : Args).translate
         then some "translate" else none) :=
  ⟨rfl, C5_translate_task (okWorld stubResult) { audio_file := "a.wav", translate := true } rfl⟩

/-- C6: the fp16 option passed to the collaborator is true exactly when
`--no-fp16` is absent and the device resolved after auto-resolution is
`"cuda"`; on a cpu device it is false even without `--no-fp16`. -/
theorem C6_fp16_only_on_cuda :
    ∀ (w : World) (args : Args),
      w.fileExists args.audio_file = true →
      ∃ c, (main w args).call = some c ∧
        c.device = (if args.device = "auto"
                    then (if w.cudaAvailable then "cuda" else "cpu")
                    else args.device) ∧
        (c.params.fp16 = true ↔ (args.no_fp16 = false ∧ c.device = "cuda")) := by
  intro w args h
  refine ⟨mainCall w args, call_eq_mainCall w args h, mainCall_device w args, ?_⟩
  rw [mainCall_fp16, mainCall_device]
  simp [Bool.and_eq_true, Bool.not_eq_true']

/-- C6 witness: the theorem applied on a cpu-only world with defaults
(no `--no-fp16`), where fp16 comes out false. -/
theorem C6_fp16_only_on_cuda_witness :
    (okWorld stubResult).fileExists "a.wav" = true ∧
    ∃ c, (main (okWorld stubResult) { audio_file := "a.wav" }).call = some c ∧
      c.device = (if ({ audio_file := "a.wav" } : Args).device = "auto"
                  then (if (okWorld stubResult).cudaAvailable then "cuda" else "cpu")
                  else ({ audio_file := "a.wav" } : Args).device) ∧
      (c.params.fp16 = true ↔
        (({ audio_file := "a.wav" } : Args).no_fp16 = false ∧ c.device = "cuda")) :=
  ⟨rfl, C6_fp16_only_on_cuda (okWorld stubResult) { audio_file := "a.wav" } rfl⟩

/-- A collaborator result with non-ASCII text, for the C7 witness. -/
def accentResult : TranscribeResult :=
  { text := "héllo", language := "fr",
    segments := [ { start := "0.0", «end» := "1.0", text := " héllo " } ] }

/-- A collaborator result whose only non-ASCII character is a leading
no-break space (U+00A0), which `str.strip()` removes. -/
def nbspResult : TranscribeResult :=
  { text := "\u00A0Hello", language := "en", segments := [] }

/-- C7 counterexample: U+00A0 is a non-ASCII character of the
collaborator's text field, yet — being Python whitespace — it is trimmed
away, so stdout does not contain it at all: the claim, which asks for
every non-ASCII character of the raw text fields to appear in stdout,
fails at this input. -/
theorem C7_non_ascii_literal_counterexample :
    0x80 ≤ ('\u00A0' : Char).toNat ∧
    '\u00A0' ∈ nbspResult.text.data ∧
    '\u00A0' ∉ ((main (okWorld nbspResult) { audio_file := "a.wav" }).stdout).data :=
  ⟨by decide, by decide, by decide⟩

/-- C7 (amended): the serializer leaves every character at or above `0x80`
unescaped, and every non-ASCII character of the whitespace-trimmed text
fields (the full text or any segment's text, after `str.strip()`) appears
literally in stdout.  Non-ASCII characters that are themselves Python
whitespace may be trimmed from the ends and then do not reach stdout. -/
theorem C7_non_ascii_literal :
    (∀ c : Char, 0x80 ≤ c.toNat → jsonEscapeChar c = String.singleton c) ∧
    (∀ (w : World) (args : Args) (r : TranscribeResult) (c : Char),
        w.fileExists args.audio_file = true →
        (∀ m d p a, w.collab m d p a = Except.ok r) →
        0x80 ≤ c.toNat →
        (c ∈ (pyStrip r.text).data ∨ ∃ seg ∈ r.segments, c ∈ (pyStrip seg.text).data) →
        c ∈ ((main w args).stdout).data) := by
  have hchar : ∀ c : Char, 0x80 ≤ c.toNat → jsonEscapeChar c = String.singleton c := by
    intro c h
    refine jsonEscapeChar_of_plain c (by omega) ?_ ?_
    · rintro rfl; exact absurd h (by decide)
    · rintro rfl; exact absurd h (by decide)
  refine ⟨hchar, ?_⟩
  intro w args r c h1 h2 h128 hmem
  have h32 : 0x20 ≤ c.toNat := by omega
  have hq : c ≠ '"' := by rintro rfl; exact absurd h128 (by decide)
  have hbs : c ≠ '\\' := by rintro rfl; exact absurd h128 (by decide)
  rw [main_stdout_ok w args r h1 h2, String.data_append]
  apply List.mem_append.mpr
  left
  unfold outputJson
  rcases hmem with htext | ⟨seg, hseg, htext⟩
  · exact mem_render_obj _ ("text", Json.str (pyStrip r.text)) (by simp) c
      (mem_render_str _ c (mem_escChars _ c htext h32 hq hbs))
  · refine mem_render_obj _
      ("segments", Json.arr (r.segments.map fun s =>
        Json.obj [("start", Json.num s.start), ("end", Json.num s.«end»),
                  ("text", Json.str (pyStrip s.text))])) (by simp) c ?_
    refine mem_render_arr _
      (Json.obj [("start", Json.num seg.start), ("end", Json.num seg.«end»),
                 ("text", Json.str (pyStrip seg.text))])
      (List.mem_map_of_mem
        (fun s : Segment =>
          Json.obj [("start", Json.num s.start), ("end", Json.num s.«end»),
                    ("text", Json.str (pyStrip s.text))]) hseg) c ?_
    exact mem_render_obj _ ("text", Json.str (pyStrip seg.text)) (by simp) c
      (mem_render_str _ c (mem_escChars _ c htext h32 hq hbs))

/-- C7 witness: `é` (code point 233) survives trimming in both text fields
and appears literally in stdout. -/
theorem C7_non_ascii_literal_witness :
    (0x80 ≤ ('é' : Char).toNat) ∧
    (okWorld accentResult).fileExists "a.wav" = true ∧
    'é' ∈ (pyStrip accentResult.text).data ∧
    'é' ∈ ((main (okWorld accentResult) { audio_file := "a.wav" }).stdout).data :=
  ⟨by decide, rfl, by decide,
   C7_non_ascii_literal.2 (okWorld accentResult) { audio_file := "a.wav" } accentResult 'é'
     rfl (fun _ _ _ _ => rfl) (by decide) (Or.inl (by decide))⟩

/-- Concrete init environment for the C8 witness: helper co-located and
every directory present. -/
def c8Env : InitEnv :=
  { scriptDir := "C:/app/scripts", scriptParent := "C:/app", pathSep := ";",
    pathExists := fun _ => true }

/-- C8: at startup the helper directory is the script's own directory
exactly when `ffmpeg.exe` is co-located, else the sibling `extra`
directory; it is prepended to `PATH` (previous value kept as suffix)
exactly when it exists, and the mutation persists: the process's final
environment is the one `moduleInit` produced. -/
theorem C8_path_prepend :
    ∀ (e : InitEnv) (environ : Environ) (w : World) (args : Args),
      (runProcess e environ w args).1 = moduleInit e environ ∧
      (e.pathExists (joinPath e.scriptDir "ffmpeg.exe") = true →
        extra_dir e = e.scriptDir) ∧
      (e.pathExists (joinPath e.scriptDir "ffmpeg.exe") = false →
        extra_dir e = joinPath e.scriptParent "extra") ∧
      (e.pathExists (extra_dir e) = true →
        envGet (runProcess e environ w args).1 "PATH" "" =
          extra_dir e ++ e.pathSep ++ envGet environ "PATH" "") ∧
      (e.pathExists (extra_dir e) = false →
        (runProcess e environ w args).1 = environ) := by
  intro e environ w args
  refine ⟨rfl, fun h => by simp [extra_dir, h], fun h => by simp [extra_dir, h],
    fun h => ?_, fun h => by simp [runProcess, moduleInit, h]⟩
  show envGet (moduleInit e environ) "PATH" "" = _
  rw [moduleInit, if_pos h]
  simp [envGet, envSet]

/-- C8 witness: with the helper co-located and all directories present,
the final `PATH` is the helper directory, the separator, then the old
value. -/
theorem C8_path_prepend_witness :
    (c8Env.pathExists (joinPath c8Env.scriptDir "ffmpeg.exe") = true ∧
      extra_dir c8Env = c8Env.scriptDir) ∧
    (c8Env.pathExists (extra_dir c8Env) = true ∧
      envGet (runProcess c8Env [("PATH", "old")] (okWorld stubResult)
          { audio_file := "a.wav" }).1 "PATH" "" =
        extra_dir c8Env ++ c8Env.pathSep ++ envGet [("PATH", "old")] "PATH" "") :=
  ⟨⟨rfl, (C8_path_prepend c8Env [("PATH", "old")] (okWorld stubResult)
      { audio_file := "a.wav" }).2.1 rfl⟩,
   ⟨rfl, (C8_path_prepend c8Env [("PATH", "old")] (okWorld stubResult)
      { audio_file := "a.wav" }).2.2.2.1 rfl⟩⟩

/-- C9: the initial-prompt key reaches the collaborator exactly when the
`--initial-prompt` argument is non-empty; otherwise the key is omitted
(`none`), so the collaborator uses its default. -/
theorem C9_initial_prompt_omitted :
    ∀ (w : World) (args : Args),
      w.fileExists args.audio_file = true →
      ∃ c, (main w args).call = some c ∧
        c.params.initial_prompt =
          (if args.initial_prompt = "" then none else some args.initial_prompt) := by
  intro w args h
  exact ⟨mainCall w args, call_eq_mainCall w args h, mainCall_initial_prompt w args⟩

/-- C9 witness: the theorem applied with a non-empty initial prompt. -/
theorem C9_initial_prompt_omitted_witness :
    (okWorld stubResult).fileExists "a.wav" = true ∧
    ∃ c, (main (okWorld stubResult)
            { audio_file := "a.wav", initial_prompt := "hi" }).call = some c ∧
      c.params.initial_prompt =
        (if ({ audio_file := "a.wav", initial_prompt := "hi" } : Args).initial_prompt = ""
         then none
         else some ({ audio_file := "a.wav", initial_prompt := "hi" } : Args).initial_prompt) :=
  ⟨rfl, C9_initial_prompt_omitted (okWorld stubResult)
    { audio_file := "a.wav", initial_prompt := "hi" } rfl⟩

/-- C10 (implicit): the model-name argument is never validated — for every
string it is forwarded verbatim to the collaborator's `load_model` — and a
collaborator exception is mapped to exit status 1 with empty stdout. -/
theorem C10_model_name_forwarded :
    (∀ (w : World) (args : Args),
        w.fileExists args.audio_file = true →
        ∃ c, (main w args).call = some c ∧ c.modelName = args.model) ∧
    (∀ (w : World) (args : Args) (e : String),
        w.fileExists args.audio_file = true →
        (∀ m d p a, w.collab m d p a = Except.error e) →
        (main w args).exitCode = 1 ∧ (main w args).stdout = "") :=
  ⟨fun w args h => ⟨mainCall w args, call_eq_mainCall w args h, mainCall_model w args⟩,
   fun w args e h1 h2 =>
    ⟨main_exit_raise w args e h1 h2, main_stdout_raise w args e h1 h2⟩⟩

/-- C10 witness: an out-of-set model name is forwarded verbatim, and a
raising collaborator yields exit 1 with empty stdout. -/
theorem C10_model_name_forwarded_witness :
    ((raiseWorld "no such model").fileExists "a.wav" = true ∧
      ∃ c, (main (raiseWorld "no such model")
              { audio_file := "a.wav", model := "bogus-model" }).call = some c ∧
        c.modelName = ({ audio_file := "a.wav", model := "bogus-model" } : Args).model) ∧
    ((main (raiseWorld "no such model")
        { audio_file := "a.wav", model := "bogus-model" }).exitCode = 1 ∧
      (main (raiseWorld "no such model")
        { audio_file := "a.wav", model := "bogus-model" }).stdout = "") :=
  ⟨⟨rfl, C10_model_name_forwarded.1 (raiseWorld "no such model")
      { audio_file := "a.wav", model := "bogus-model" } rfl⟩,
    C10_model_name_forwarded.2 (raiseWorld "no such model")
      { audio_file := "a.wav", model := "bogus-model" } "no such model" rfl
      (fun _ _ _ _ => rfl)⟩

end WhisperTranscribe
